import Mathlib

/-!
Verification of the AI Request & Context Assembly Engine of a reading /
annotation application.  The definitions below are a shallow embedding of
the TypeScript source (src/services/geminiService.ts and src/App.tsx):
JavaScript strings are modelled as lists of characters, the stateful
React flows as explicit state-passing functions, and each network call as
an oracle parameter giving the outcome of that call.
-/

/-- JavaScript strings, modelled as lists of (Unicode) characters. -/
abbrev Str := List Char

/-- Embed a Lean string literal as a character list. -/
def str (s : String) : Str := s.toList

/-- The character class matched by the JavaScript regex `\s`
(ASCII whitespace plus the Unicode space separators). -/
def isWS (c : Char) : Bool :=
  c = ' ' || c = '\t' || c = '\n' || c = '\r' || c = '\x0b' || c = '\x0c' ||
  c = '\u00A0' || c = '\u1680' || ('\u2000' ≤ c && c ≤ '\u200A') ||
  c = '\u2028' || c = '\u2029' || c = '\u202F' || c = '\u205F' ||
  c = '\u3000' || c = '\uFEFF'

/-- Auxiliary for `collapseWS`: the flag records whether the previous
character was part of a whitespace run already replaced by a space. -/
def collapseWSAux : Bool → Str → Str
  | _, [] => []
  | inRun, c :: rest =>
    if isWS c then
      (if inRun then [] else [' ']) ++ collapseWSAux true rest
    else c :: collapseWSAux false rest

/-- `s.replace(/\s+/g, ' ')`: every maximal run of whitespace becomes a
single space. -/
def collapseWS (s : Str) : Str := collapseWSAux false s

/-- `s.trim()`: strip whitespace from both ends. -/
def trimWS (s : Str) : Str :=
  ((s.dropWhile isWS).reverse.dropWhile isWS).reverse

/-- Auxiliary for `firstIndexOf`: scan the suffixes of the text, keeping
the absolute index of the suffix currently examined. -/
def firstIndexOfAux (t : Str) : Str → Nat → Option Nat
  | [], i => if t = [] then some i else none
  | c :: rest, i =>
    if (c :: rest).take t.length = t then some i
    else firstIndexOfAux t rest (i + 1)

/-- `fullText.indexOf(target)`, with `none` standing for -1. -/
def firstIndexOf (s t : Str) : Option Nat := firstIndexOfAux t s 0

/-- `getContext` from src/services/geminiService.ts: window around the
first occurrence of `target` in `fullText`, whitespace collapsed.  The
source guards on falsy arguments (empty strings) and on a missing
occurrence, returning the empty string.  `lookbackChars` defaults to 2000
at every call site. -/
def getContext (fullText target : Str) (lookbackChars : Nat) : Str :=
  if fullText = [] || target = [] then []
  else
    match firstIndexOf fullText target with
    | none => []
    | some idx =>
      let start := idx - lookbackChars
      let stop := min fullText.length (idx + target.length + 200)
      collapseWS ((fullText.drop start).take (stop - start))

/-- `Annotation.author` field: `'ai' | 'user'`. -/
inductive Author
  | ai
  | user
deriving DecidableEq

/-- Chat turn roles: `'user' | 'model'`. -/
inductive ChatRole
  | user
  | model
deriving DecidableEq

/-- A chat turn `{role, text}`. -/
structure ChatTurn where
  role : ChatRole
  text : Str
deriving DecidableEq

/-- `Annotation.position`. -/
structure Position where
  startOffset : Nat
  endOffset : Nat
deriving DecidableEq

/-- The `Annotation` record from src/types.ts, as used by src/App.tsx
(with `chatHistory` and the optional `topic` / `personaId` fields). -/
structure Annotation where
  id : Str
  bookId : Str
  textSelection : Str
  comment : Str
  author : Author
  timestamp : Nat
  personaId : Option Str
  topic : Option Str
  isAutonomous : Bool
  position : Position
  chatHistory : List ChatTurn
deriving DecidableEq

/-- `a.author === 'user' ? '用户' : '我'`. -/
def stmRole (a : Annotation) : Str :=
  if a.author = Author.user then str "用户" else str "我"

/-- `a.topic ? `[${a.topic}]` : ''` (an absent or empty topic is falsy). -/
def stmTopic (a : Annotation) : Str :=
  match a.topic with
  | none => []
  | some t => if t = [] then [] else str "[" ++ t ++ str "]"

/-- `a.comment.length > 50 ? a.comment.substring(0, 50) + "..." : a.comment`. -/
def stmContent (a : Annotation) : Str :=
  if 50 < a.comment.length then a.comment.take 50 ++ str "..." else a.comment

/-- One rendered line `- ${topic} ${role}: ${content}` of the short-term
memory log. -/
def stmLine (a : Annotation) : Str :=
  str "- " ++ stmTopic a ++ str " " ++ stmRole a ++ str ": " ++ stmContent a

/-- `lines.join('\n')`. -/
def joinNL : List Str → Str
  | [] => []
  | [x] => x
  | x :: y :: ys => x ++ '\n' :: joinNL (y :: ys)

/-- Split a character list at newline characters (the usual reading of
"lines" of the output; inverse of `joinNL` for newline-free pieces). -/
def splitNL : Str → List Str
  | [] => [[]]
  | c :: rest =>
    if c = '\n' then [] :: splitNL rest
    else
      match splitNL rest with
      | [] => [[c]]
      | l :: ls => (c :: l) :: ls

/-- `formatShortTermMemory` from src/services/geminiService.ts (the
source also treats a null list as empty; Lean lists are never null). -/
def formatShortTermMemory (recs : List Annotation) : Str :=
  if recs = [] then str "暂无最近的讨论。"
  else joinNL (recs.map stmLine)

/-- Kind of exception a `fetch` call can reject with: a cancellation
(`AbortError`) or any other network-level error. -/
inductive ErrKind
  | abort
  | network
deriving DecidableEq

/-- Outcome of one underlying `fetch` call: a settled `Response` with an
HTTP status, or a thrown exception. -/
inductive FetchResult
  | resp (status : Nat)
  | err (k : ErrKind)
deriving DecidableEq

/-- `response.ok`: status in the 2xx range. -/
def respOk (status : Nat) : Bool :=
  decide (200 ≤ status) && decide (status < 300)

/-- The retry condition of `fetchWithRetry`:
`!response.ok && (status === 429 || status >= 500)`. -/
def retryableResp (status : Nat) : Bool :=
  !respOk status && (decide (status = 429) || decide (500 ≤ status))

/-- Whether an attempt outcome triggers the retry logic: a retryable
HTTP status, or a non-cancellation network error. -/
def retryableOutcome : FetchResult → Bool
  | FetchResult.resp s => retryableResp s
  | FetchResult.err ErrKind.network => true
  | FetchResult.err ErrKind.abort => false

instance {ε α : Type} [DecidableEq ε] [DecidableEq α] :
    DecidableEq (Except ε α) := fun x y =>
  match x, y with
  | Except.ok a, Except.ok b =>
    if h : a = b then isTrue (congrArg Except.ok h)
    else isFalse (fun hh => h (Except.ok.inj hh))
  | Except.error a, Except.error b =>
    if h : a = b then isTrue (congrArg Except.error h)
    else isFalse (fun hh => h (Except.error.inj hh))
  | Except.ok _, Except.error _ => isFalse (fun hh => Except.noConfusion hh)
  | Except.error _, Except.ok _ => isFalse (fun hh => Except.noConfusion hh)

/-- Observable result of a whole `fetchWithRetry` run: the value it
settles with (`.ok status` for a returned response — possibly a failing
one — and `.error k` for a rejection), the backoff waits performed, and
how many `fetch` attempts were made. -/
structure RunResult where
  result : Except ErrKind Nat
  waits : List Nat
  attempts : Nat
deriving DecidableEq

/-- `fetchWithRetry` from src/services/geminiService.ts.  `fetchO k`
gives the outcome of the k-th `fetch` attempt of the run; `aborted k`
gives the value of `options.signal?.aborted` at the check performed
after the backoff wait that follows attempt `k` (absent signal reads
as `false`).  On a retryable status with retries remaining the code
waits, re-checks the signal (throwing `AbortError` if set) and recurses
with `retries - 1` and doubled backoff; a thrown `AbortError` is
re-thrown before any retry logic; on exhaustion a failing response is
returned as-is while a network error is re-thrown. -/
def fetchWithRetry (fetchO : Nat → FetchResult) (aborted : Nat → Bool)
    (k retries backoff : Nat) : RunResult :=
  match fetchO k with
  | FetchResult.resp status =>
    if retryableResp status then
      match retries with
      | 0 => { result := Except.ok status, waits := [], attempts := 1 }
      | r + 1 =>
        if aborted k then
          { result := Except.error ErrKind.abort, waits := [backoff], attempts := 1 }
        else
          let rest := fetchWithRetry fetchO aborted (k + 1) r (backoff * 2)
          { result := rest.result, waits := backoff :: rest.waits,
            attempts := rest.attempts + 1 }
    else { result := Except.ok status, waits := [], attempts := 1 }
  | FetchResult.err ErrKind.abort =>
    { result := Except.error ErrKind.abort, waits := [], attempts := 1 }
  | FetchResult.err ErrKind.network =>
    match retries with
    | 0 => { result := Except.error ErrKind.network, waits := [], attempts := 1 }
    | r + 1 =>
      if aborted k then
        { result := Except.error ErrKind.abort, waits := [backoff], attempts := 1 }
      else
        let rest := fetchWithRetry fetchO aborted (k + 1) r (backoff * 2)
        { result := rest.result, waits := backoff :: rest.waits,
          attempts := rest.attempts + 1 }

/-- The exponential backoff schedule: `n` waits starting at `backoff`,
doubling each time. -/
def backoffWaits (backoff : Nat) : Nat → List Nat
  | 0 => []
  | n + 1 => backoff :: backoffWaits (backoff * 2) n

/-- JavaScript `a || b` on an optional string field (`undefined` and the
empty string are falsy). -/
def jsOr (a : Option Str) (b : Str) : Str :=
  match a with
  | none => b
  | some m => if m = [] then b else m

/-- The fallback message `` `Gemini API Error: ${response.status}` ``. -/
def geminiGenericMessage (status : Nat) : Str :=
  str "Gemini API Error: " ++ str (toString status)

/-- The fallback message
`` `OpenAI API Error: ${response.status} - ${JSON.stringify(errData)}` ``. -/
def openAIGenericMessage (status : Nat) (serialized : Str) : Str :=
  str "OpenAI API Error: " ++ str (toString status) ++ str " - " ++ serialized

/-- Settling behaviour of `callGemini` after `fetchWithRetry` resolved
with `status`: on a non-ok response it throws
`errData.error?.message || generic`; otherwise it returns the unwrapped
candidate text.  `errMsg` is the parsed error body's `error.message`
field (`none` when the body is not JSON or lacks the field). -/
def callGeminiOutcome (status : Nat) (errMsg : Option Str) (text : Str) :
    Except Str Str :=
  if respOk status then Except.ok text
  else Except.error (jsOr errMsg (geminiGenericMessage status))

/-- Settling behaviour of `callOpenAI` after `fetchWithRetry` resolved
with `status`; `serialized` is `JSON.stringify(errData)` (which is
`"{}"` when the body could not be parsed). -/
def callOpenAIOutcome (status : Nat) (errMsg : Option Str)
    (serialized : Str) (text : Str) : Except Str Str :=
  if respOk status then Except.ok text
  else Except.error (jsOr errMsg (openAIGenericMessage status serialized))

/-- `generateAIAnnotation`'s treatment of the adapter text:
`return text || "...";`. -/
def generateAIAnnotationResult (text : Str) : Str :=
  if text = [] then str "..." else text

/-- `chatWithPersona`'s treatment of the adapter text:
`return text || "...";`. -/
def chatWithPersonaResult (text : Str) : Str :=
  if text = [] then str "..." else text

/-- `generateAIResponseToUserNote`'s treatment of the adapter text:
`return text || "...";`. -/
def generateAIResponseToUserNoteResult (text : Str) : Str :=
  if text = [] then str "..." else text

/-- `generateLongFormAIReview`'s treatment of the adapter text. -/
def generateLongFormAIReviewResult (text : Str) : Str :=
  if text = [] then str "（陷入了沉思，无法言语...）" else text

/-- `respondToUserBookReview`'s treatment of the adapter text. -/
def respondToUserBookReviewResult (text : Str) : Str :=
  if text = [] then str "我明白了。" else text

/-- The separator class of `topic.split(/[,，、\s]/)`. -/
def isTopicSep (c : Char) : Bool :=
  c = ',' || c = '，' || c = '、' || isWS c

/-- The character class removed by `topic.replace(/[。！\.：:]/g, '')`. -/
def isTopicStrip (c : Char) : Bool :=
  c = '。' || c = '！' || c = '.' || c = '：' || c = ':'

/-- `summarizeTopic`'s post-processing of the adapter text: trim, keep
the segment before the first separator, strip punctuation, hard-truncate
to 4 characters when longer than 5, and fall back to `"随想"` when
empty. -/
def summarizeTopicResult (text : Str) : Str :=
  let t1 := trimWS text
  let t2 := t1.takeWhile (fun c => !(isTopicSep c))
  let t3 := t2.filter (fun c => !(isTopicStrip c))
  if 5 < t3.length then t3.take 4
  else if t3 = [] then str "随想" else t3

/-- `consolidateMemory`'s treatment of the adapter text:
`return text.trim();` — no fallback is applied. -/
def consolidateMemoryResult (text : Str) : Str := trimWS text

/-- `new Set(prev).add(x)` on the tracked id set (membership view of the
JavaScript `Set`, insertion order at the end). -/
def setInsert (s : List Str) (x : Str) : List Str :=
  if x ∈ s then s else s ++ [x]

/-- `next.delete(x)` on the tracked id set. -/
def setDelete (s : List Str) (x : Str) : List Str :=
  s.filter (fun y => decide (¬ y = x))

/-- The slice of React state in src/App.tsx that the coordinator flows
read and write: the shared annotation collection, the per-id Pending set
`processingAnnotationIds`, `activeAnnotationId`, and the global
`isProcessing` flag. -/
structure CoordState where
  annotations : List Annotation
  processing : List Str
  activeAnnotationId : Option Str
  isProcessing : Bool
deriving DecidableEq

/-- The `catch` block of `executeAIAnnotation`: drop every record with
the placeholder id and clear the active id.  `pre` is the state captured
by the React closure when the callback was created (the comparison
`activeAnnotationId === tempId` reads the closed-over value, not the
value set during the optimistic update). -/
def rollbackPlaceholder (pre st : CoordState) (tempId : Str) : CoordState :=
  { st with
    annotations := st.annotations.filter (fun a => decide (¬ a.id = tempId)),
    activeAnnotationId :=
      if pre.activeAnnotationId = some tempId then none
      else st.activeAnnotationId }

/-- `executeAIAnnotation` from src/App.tsx, as a state transformer over
one run.  `hasActiveBook` and `validAPI` model the early-return guards;
`genResult` is the settled outcome of the `generateAIAnnotation` call
(`.error` when it threw) and `topicResult` that of the `summarizeTopic`
call; `ts1`/`ts2` are the two `Date.now()` readings.  The `try` block
inserts an optimistic placeholder, marks the id Pending, and on any
throw (transport failure, empty comment, topic failure) the `catch`
block rolls the placeholder back; the `finally` block always clears the
Pending marker and the global flag. -/
def executeAIAnnotation (st : CoordState) (hasActiveBook validAPI : Bool)
    (tempId bookId selection personaId : Str) (ts1 ts2 : Nat)
    (genResult topicResult : Except Str Str) : CoordState :=
  if !hasActiveBook || st.isProcessing then st
  else if !validAPI then st
  else
    let optimistic : Annotation :=
      { id := tempId, bookId := bookId, textSelection := selection,
        comment := [], author := Author.ai, timestamp := ts1,
        personaId := some personaId, topic := some (str "思考中..."),
        isAutonomous := false, position := ⟨0, 0⟩, chatHistory := [] }
    let st1 : CoordState :=
      { annotations := optimistic :: st.annotations,
        processing := setInsert st.processing tempId,
        activeAnnotationId := some tempId,
        isProcessing := true }
    let st2 : CoordState :=
      match genResult with
      | Except.error _ => rollbackPlaceholder st st1 tempId
      | Except.ok comment =>
        if comment = [] then rollbackPlaceholder st st1 tempId
        else
          match topicResult with
          | Except.error _ => rollbackPlaceholder st st1 tempId
          | Except.ok topic =>
            let finalAnno : Annotation :=
              { id := tempId, bookId := bookId, textSelection := selection,
                comment := comment, author := Author.ai, timestamp := ts2,
                personaId := some personaId, topic := some topic,
                isAutonomous := false, position := ⟨0, 0⟩,
                chatHistory := [⟨ChatRole.model, comment⟩] }
            { st1 with
              annotations := st1.annotations.map
                (fun a => if a.id = tempId then finalAnno else a) }
    { st2 with
      isProcessing := false,
      processing := setDelete st2.processing tempId }

/-- The fixed fallback apology turn text appended by
`handleTriggerAIReply` when the AI call fails. -/
def fallbackApology : Str := str "抱歉，我的思绪中断了。"

/-- `handleTriggerAIReply` from src/App.tsx, as a state transformer over
one run.  `replyResult` is the settled outcome of the `chatWithPersona`
call.  A non-empty `userMessage` is optimistically appended to the
record's chat history before the call; on success the model reply is
appended after it, on failure the fixed apology turn is appended
instead; the `finally` block removes the id from the Pending set in
either case. -/
def handleTriggerAIReply (st : CoordState) (annotationId userMessage : Str)
    (contextChatHistory : List ChatTurn) (replyResult : Except Str Str) :
    CoordState :=
  match st.annotations.find? (fun a => decide (a.id = annotationId)) with
  | none => st
  | some _ =>
    let historyForAI :=
      if userMessage = [] then contextChatHistory
      else contextChatHistory ++ [⟨ChatRole.user, userMessage⟩]
    let st1 : CoordState :=
      if userMessage = [] then st
      else
        { st with
          annotations := st.annotations.map (fun a =>
            if a.id = annotationId then { a with chatHistory := historyForAI }
            else a) }
    let st2 : CoordState :=
      { st1 with processing := setInsert st1.processing annotationId }
    let st3 : CoordState :=
      match replyResult with
      | Except.ok reply =>
        { st2 with
          annotations := st2.annotations.map (fun a =>
            if a.id = annotationId then
              { a with chatHistory := historyForAI ++ [⟨ChatRole.model, reply⟩] }
            else a) }
      | Except.error _ =>
        { st2 with
          annotations := st2.annotations.map (fun a =>
            if a.id = annotationId then
              { a with
                chatHistory := historyForAI ++ [⟨ChatRole.model, fallbackApology⟩] }
            else a) }
    { st3 with processing := setDelete st3.processing annotationId }

/-- A concrete annotation record used by the witnesses. -/
def sampleAnno : Annotation :=
  { id := str "7", bookId := str "b1", textSelection := str "some passage",
    comment := str "note", author := Author.user, timestamp := 5,
    personaId := some (str "p1"), topic := some (str "t"),
    isAutonomous := false, position := ⟨0, 0⟩,
    chatHistory := [⟨ChatRole.user, str "note"⟩] }

/-- A concrete coordinator state used by the witnesses. -/
def sampleState : CoordState :=
  { annotations := [sampleAnno], processing := [], activeAnnotationId := none,
    isProcessing := false }

/-- A concrete record whose comment contains a newline (counterexample
input for the line-count property of the short-term memory log). -/
def newlineAnno : Annotation :=
  { id := str "9", bookId := str "b1", textSelection := [],
    comment := str "a\nb", author := Author.user, timestamp := 0,
    personaId := none, topic := some (str "t"),
    isAutonomous := false, position := ⟨0, 0⟩, chatHistory := [] }

/-- Fetch oracle for the retry witness: attempts 0 and 1 settle with
HTTP 503, attempt 2 with HTTP 200. -/
def oracle503 : Nat → FetchResult :=
  fun k => if k = 0 then FetchResult.resp 503
           else if k = 1 then FetchResult.resp 503
           else FetchResult.resp 200

/-- Fetch oracle whose every attempt settles with HTTP 503. -/
def oracleAll503 : Nat → FetchResult := fun _ => FetchResult.resp 503

/-- Fetch oracle whose first attempt throws `AbortError`. -/
def oracleAbort : Nat → FetchResult := fun _ => FetchResult.err ErrKind.abort

/-- A signal that reads as aborted at every check. -/
def alwaysAborted : Nat → Bool := fun _ => true

/-- A signal that never reads as aborted. -/
def neverAborted : Nat → Bool := fun _ => false

/-- The characters of the optional topic field (empty when absent). -/
def topicChars (a : Annotation) : Str :=
  match a.topic with
  | none => []
  | some t => t

/-- C10: for every `fullText`, `getContext fullText "" = ""` (and
`getContext "" target = ""`), because of the explicit guard on falsy
arguments — even though the empty target occurs at index 0 of every
string (`firstIndexOf fullText [] = some 0`), so the first-occurrence
window formula does not apply when `target` or `fullText` is empty. -/
theorem getContext_empty_args :
    ∀ (fullText target : Str),
      getContext fullText [] 2000 = [] ∧
      getContext [] target 2000 = [] ∧
      firstIndexOf fullText [] = some 0 := by
  intro fullText target
  refine ⟨?_, ?_, ?_⟩
  · simp [getContext]
  · simp [getContext]
  · cases fullText <;> simp [firstIndexOf, firstIndexOfAux]

/-- C6 (amended): on an empty-but-successful provider response,
`generateAIAnnotation`, `chatWithPersona`, `generateAIResponseToUserNote`,
`generateLongFormAIReview`, `respondToUserBookReview` and
`summarizeTopic` return their documented non-empty fallback strings
without throwing; `consolidateMemory`, however, applies no fallback — it
returns the trimmed provider text, which is empty when the provider text
is empty. -/
theorem exported_empty_response_fallbacks :
    generateAIAnnotationResult [] = str "..." ∧
    chatWithPersonaResult [] = str "..." ∧
    generateAIResponseToUserNoteResult [] = str "..." ∧
    generateLongFormAIReviewResult [] = str "（陷入了沉思，无法言语...）" ∧
    respondToUserBookReviewResult [] = str "我明白了。" ∧
    summarizeTopicResult [] = str "随想" ∧
    generateAIAnnotationResult [] ≠ [] ∧
    chatWithPersonaResult [] ≠ [] ∧
    generateAIResponseToUserNoteResult [] ≠ [] ∧
    generateLongFormAIReviewResult [] ≠ [] ∧
    respondToUserBookReviewResult [] ≠ [] ∧
    summarizeTopicResult [] ≠ [] ∧
    (∀ text : Str, consolidateMemoryResult text = trimWS text) := by
  refine ⟨?_, ?_, ?_, ?_, ?_, ?_, ?_, ?_, ?_, ?_, ?_, ?_, fun text => rfl⟩ <;> decide

/-- C6 counterexample: `consolidateMemory` on an empty-but-successful
provider response returns the empty string, not a non-empty fallback. -/
theorem consolidateMemory_empty_response :
    consolidateMemoryResult [] = [] := by decide

/-- C9 (amended): both adapters treat every non-2xx response as a hard
failure and never return normally; the thrown message is the parsed
error body's `error.message` when present and non-empty; otherwise the
Gemini adapter uses `"Gemini API Error: <status>"` while the OpenAI
adapter uses `"OpenAI API Error: <status> - <serialized error body>"`
(with the serialized body appended). -/
theorem adapters_non2xx_throw :
    ∀ (status : Nat) (m serialized textG textO : Str),
      respOk status = false →
      callGeminiOutcome status none textG =
          Except.error (geminiGenericMessage status) ∧
      callGeminiOutcome status (some m) textG =
          Except.error (if m = [] then geminiGenericMessage status else m) ∧
      callOpenAIOutcome status none serialized textO =
          Except.error (openAIGenericMessage status serialized) ∧
      callOpenAIOutcome status (some m) serialized textO =
          Except.error
            (if m = [] then openAIGenericMessage status serialized else m) ∧
      (∀ (eM : Option Str) (r : Str),
          callGeminiOutcome status eM textG ≠ Except.ok r) ∧
      (∀ (eM : Option Str) (r : Str),
          callOpenAIOutcome status eM serialized textO ≠ Except.ok r) := by
  intro status m serialized textG textO h
  refine ⟨?_, ?_, ?_, ?_, ?_, ?_⟩ <;>
    simp [callGeminiOutcome, callOpenAIOutcome, jsOr, h]

/-- Witness for the amended C9 theorem at status 404 with an unparsable
error body. -/
theorem adapters_non2xx_throw_witness :
    respOk 404 = false ∧
    callGeminiOutcome 404 none [] =
        Except.error (geminiGenericMessage 404) ∧
    callGeminiOutcome 404 (some (str "quota")) [] =
        Except.error (if str "quota" = ([] : Str)
                      then geminiGenericMessage 404 else str "quota") ∧
    callOpenAIOutcome 404 none (str "{}") [] =
        Except.error (openAIGenericMessage 404 (str "{}")) ∧
    callOpenAIOutcome 404 (some (str "quota")) (str "{}") [] =
        Except.error (if str "quota" = ([] : Str)
                      then openAIGenericMessage 404 (str "{}") else str "quota") ∧
    (∀ (eM : Option Str) (r : Str),
        callGeminiOutcome 404 eM [] ≠ Except.ok r) ∧
    (∀ (eM : Option Str) (r : Str),
        callOpenAIOutcome 404 eM (str "{}") [] ≠ Except.ok r) :=
  ⟨by decide, adapters_non2xx_throw 404 (str "quota") (str "{}") [] [] (by decide)⟩

/-- C9 counterexample: on a 404 with an unparsable body the OpenAI
adapter's message is `"OpenAI API Error: 404 - {}"`, which is not the
generic `"OpenAI API Error: 404"` stated by the claim. -/
theorem callOpenAI_message_has_suffix :
    callOpenAIOutcome 404 none (str "{}") [] =
        Except.error (str "OpenAI API Error: 404 - {}") ∧
    str "OpenAI API Error: 404 - {}" ≠ str "OpenAI API Error: 404" := by
  constructor
  · decide
  · decide

/-- C3: if the cancellation signal reads aborted at the check during a
backoff wait, `fetchWithRetry` rejects with the cancellation kind after
exactly that one wait and performs no further network attempts; and an
attempt failing with the cancellation kind is rethrown immediately —
never retried — regardless of the remaining retry budget. -/
theorem fetchWithRetry_cancellation :
    ∀ (fetchO : Nat → FetchResult) (aborted : Nat → Bool)
      (k retries backoff : Nat),
      (retryableOutcome (fetchO k) = true → 0 < retries →
        aborted k = true →
        fetchWithRetry fetchO aborted k retries backoff =
          { result := Except.error ErrKind.abort, waits := [backoff],
            attempts := 1 }) ∧
      (fetchO k = FetchResult.err ErrKind.abort →
        fetchWithRetry fetchO aborted k retries backoff =
          { result := Except.error ErrKind.abort, waits := [],
            attempts := 1 }) := by
  intro fetchO aborted k retries backoff
  constructor
  · intro hret hpos hab
    obtain ⟨r, rfl⟩ : ∃ r, retries = r + 1 := ⟨retries - 1, by omega⟩
    cases hfO : fetchO k with
    | resp st =>
      have hst : retryableResp st = true := by
        rw [hfO] at hret; simpa [retryableOutcome] using hret
      simp [fetchWithRetry, hfO, hst, hab]
    | err ek =>
      cases ek with
      | abort => rw [hfO] at hret; simp [retryableOutcome] at hret
      | network => simp [fetchWithRetry, hfO, hab]
  · intro hfO
    cases retries <;> simp [fetchWithRetry, hfO]

/-- Witness for the C3 theorem: a signal aborted during the first
backoff wait, and a fetch rejecting with `AbortError`, each with a full
retry budget left. -/
theorem fetchWithRetry_cancellation_witness :
    (retryableOutcome (oracleAll503 0) = true ∧ (0 : Nat) < 3 ∧
      alwaysAborted 0 = true ∧
      fetchWithRetry oracleAll503 alwaysAborted 0 3 1000 =
        { result := Except.error ErrKind.abort, waits := [1000],
          attempts := 1 }) ∧
    (oracleAbort 0 = FetchResult.err ErrKind.abort ∧
      fetchWithRetry oracleAbort neverAborted 0 3 1000 =
        { result := Except.error ErrKind.abort, waits := [],
          attempts := 1 }) := by
  constructor
  · exact ⟨by decide, by decide, by decide,
      (fetchWithRetry_cancellation oracleAll503 alwaysAborted 0 3 1000).1
        (by decide) (by decide) (by decide)⟩
  · exact ⟨by decide,
      (fetchWithRetry_cancellation oracleAbort neverAborted 0 3 1000).2
        (by decide)⟩

/-- C4: without cancellation, a run whose first `n` attempts fail
retryably (HTTP 429/5xx or network error, `n ≤ retries`) and whose
attempt `n` settles with a response that is not retried (either a
non-retryable status, or a failing status with the budget exhausted,
`n = retries`) returns that response as-is after exactly the doubling
backoff schedule `backoff, 2*backoff, ...` of length `n`, having made
`n + 1` attempts.  In particular exhaustion returns the last failing
response rather than throwing, and each retry halves the remaining
budget and doubles the backoff. -/
theorem fetchWithRetry_schedule :
    ∀ (fetchO : Nat → FetchResult) (aborted : Nat → Bool)
      (n k retries backoff s : Nat),
      n ≤ retries →
      (∀ j, j < n → retryableOutcome (fetchO (k + j)) = true) →
      (∀ j, aborted j = false) →
      fetchO (k + n) = FetchResult.resp s →
      (retryableResp s = true → n = retries) →
      fetchWithRetry fetchO aborted k retries backoff =
        { result := Except.ok s, waits := backoffWaits backoff n,
          attempts := n + 1 } := by
  intro fetchO aborted n
  induction n with
  | zero =>
    intro k retries backoff s hle hretry hab hfk hlast
    rw [Nat.add_zero] at hfk
    by_cases hs : retryableResp s = true
    · have hr0 : retries = 0 := (hlast hs).symm
      subst hr0
      simp [fetchWithRetry, hfk, hs, backoffWaits]
    · cases retries <;> simp [fetchWithRetry, hfk, hs, backoffWaits]
  | succ n ih =>
    intro k retries backoff s hle hretry hab hfk hlast
    obtain ⟨r, rfl⟩ : ∃ r, retries = r + 1 := ⟨retries - 1, by omega⟩
    have h0 := hretry 0 (Nat.succ_pos n)
    rw [Nat.add_zero] at h0
    have hrec := ih (k + 1) r (backoff * 2) s (by omega)
      (fun j hj => by
        have hh := hretry (j + 1) (by omega)
        rwa [show k + (j + 1) = k + 1 + j by omega] at hh)
      hab
      (by rwa [show k + (n + 1) = k + 1 + n by omega] at hfk)
      (fun hs => by have := hlast hs; omega)
    cases hfO : fetchO k with
    | resp st =>
      have hst : retryableResp st = true := by
        rw [hfO] at h0; simpa [retryableOutcome] using h0
      simp [fetchWithRetry, hfO, hst, hab k, hrec, backoffWaits]
    | err ek =>
      cases ek with
      | abort => rw [hfO] at h0; simp [retryableOutcome] at h0
      | network => simp [fetchWithRetry, hfO, hab k, hrec, backoffWaits]

/-- Witness for the C4 theorem: the spec's scenario — two 503 failures
then success returns the successful response after exactly the waits
1000ms and 2000ms — and the exhaustion scenario — four 503s with
`retries = 3` return the last failing 503 response as-is after waits
1000ms, 2000ms, 4000ms. -/
theorem fetchWithRetry_schedule_witness :
    ((2 : Nat) ≤ 3 ∧
      fetchWithRetry oracle503 neverAborted 0 3 1000 =
        { result := Except.ok 200, waits := [1000, 2000], attempts := 3 }) ∧
    ((3 : Nat) ≤ 3 ∧
      fetchWithRetry oracleAll503 neverAborted 0 3 1000 =
        { result := Except.ok 503, waits := [1000, 2000, 4000],
          attempts := 4 }) := by
  constructor
  · refine ⟨by decide, ?_⟩
    have h := fetchWithRetry_schedule oracle503 neverAborted 2 0 3 1000 200
      (by decide) (by decide) (fun j => rfl) (by decide) (by decide)
    exact h.trans (by decide)
  · refine ⟨by decide, ?_⟩
    have h := fetchWithRetry_schedule oracleAll503 neverAborted 3 0 3 1000 503
      (by decide) (by decide) (fun j => rfl) (by decide) (by decide)
    exact h.trans (by decide)

/-- Soundness of the index scan: a returned index marks a match of the
target. -/
theorem firstIndexOfAux_sound (t : Str) :
    ∀ (s : Str) (i0 i : Nat), firstIndexOfAux t s i0 = some i →
      i0 ≤ i ∧ (s.drop (i - i0)).take t.length = t := by
  intro s
  induction s with
  | nil =>
    intro i0 i h
    by_cases ht : t = []
    · subst ht
      simp [firstIndexOfAux] at h
      subst h
      simp
    · simp [firstIndexOfAux, ht] at h
  | cons c rest ih =>
    intro i0 i h
    by_cases hm : (c :: rest).take t.length = t
    · simp [firstIndexOfAux, hm] at h
      subst h
      simpa using hm
    · simp only [firstIndexOfAux, hm, if_false, ite_false] at h
      obtain ⟨hle, hdt⟩ := ih (i0 + 1) i h
      refine ⟨by omega, ?_⟩
      have hsub : i - i0 = (i - (i0 + 1)) + 1 := by omega
      rw [hsub]
      simpa using hdt

/-- Minimality of the index scan: no earlier position matches the
target. -/
theorem firstIndexOfAux_min (t : Str) :
    ∀ (s : Str) (i0 i : Nat), firstIndexOfAux t s i0 = some i →
      ∀ j, i0 ≤ j → j < i → (s.drop (j - i0)).take t.length ≠ t := by
  intro s
  induction s with
  | nil =>
    intro i0 i h j hj1 hj2
    by_cases ht : t = []
    · simp [firstIndexOfAux, ht] at h
      omega
    · simp [firstIndexOfAux, ht] at h
  | cons c rest ih =>
    intro i0 i h j hj1 hj2
    by_cases hm : (c :: rest).take t.length = t
    · simp [firstIndexOfAux, hm] at h
      omega
    · simp only [firstIndexOfAux, hm, if_false, ite_false] at h
      by_cases hji : j = i0
      · subst hji
        simpa using hm
      · have hrec := ih (i0 + 1) i h j (by omega) hj2
        have hsub : j - i0 = (j - (i0 + 1)) + 1 := by omega
        rw [hsub]
        simpa using hrec

/-- C7: whenever `target` is non-empty and its first occurrence in
`text` is at index `i` (as computed by `indexOf`), `getContext` with the
default lookback 2000 returns the substring of `text` from
`max(0, i - 2000)` (truncated subtraction) up to
`min(len(text), i + len(target) + 200)` with every whitespace run
collapsed to one space; moreover `i` really is an occurrence and no
earlier index is. -/
theorem getContext_first_window :
    ∀ (text target : Str) (i : Nat),
      target ≠ [] →
      firstIndexOf text target = some i →
      getContext text target 2000 =
        collapseWS
          ((text.take (min text.length (i + target.length + 200))).drop
            (i - 2000)) ∧
      (text.drop i).take target.length = target ∧
      (∀ j, j < i → (text.drop j).take target.length ≠ target) := by
  intro text target i ht hidx
  have hsound := firstIndexOfAux_sound target text 0 i hidx
  have hmin := firstIndexOfAux_min target text 0 i hidx
  have htext : text ≠ [] := by
    intro he
    subst he
    simp [firstIndexOf, firstIndexOfAux, ht] at hidx
  refine ⟨?_, by simpa using hsound.2,
    fun j hj => by simpa using hmin j (Nat.zero_le j) hj⟩
  have hidx2 : firstIndexOfAux target text 0 = some i := hidx
  rw [List.drop_take]
  simp [getContext, htext, ht, firstIndexOf, hidx2]

/-- Witness for the C7 theorem on a concrete text with internal
whitespace. -/
theorem getContext_first_window_witness :
    (str "cd" ≠ ([] : Str) ∧
      firstIndexOf (str "ab  cd") (str "cd") = some 4) ∧
    (getContext (str "ab  cd") (str "cd") 2000 =
        collapseWS
          (((str "ab  cd").take
              (min (str "ab  cd").length (4 + (str "cd").length + 200))).drop
            (4 - 2000)) ∧
      ((str "ab  cd").drop 4).take (str "cd").length = str "cd" ∧
      (∀ j, j < 4 →
        ((str "ab  cd").drop j).take (str "cd").length ≠ str "cd")) :=
  ⟨⟨by decide, by decide⟩,
    getContext_first_window (str "ab  cd") (str "cd") 4 (by decide) (by decide)⟩

/-- `splitNL` never returns the empty list of lines. -/
theorem splitNL_ne_nil : ∀ s : Str, splitNL s ≠ [] := by
  intro s
  induction s with
  | nil => simp [splitNL]
  | cons c rest ih =>
    by_cases h : c = '\n'
    · simp [splitNL, h]
    · simp only [splitNL, h, if_false, ite_false]
      cases hs : splitNL rest with
      | nil => simp
      | cons l ls => simp

/-- A newline-free string is a single line. -/
theorem splitNL_no_newline : ∀ s : Str, '\n' ∉ s → splitNL s = [s] := by
  intro s
  induction s with
  | nil => intro _; rfl
  | cons c rest ih =>
    intro h
    rw [List.mem_cons] at h
    push_neg at h
    obtain ⟨h1, h2⟩ := h
    have hc : ¬ c = '\n' := fun hh => h1 hh.symm
    simp [splitNL, hc, ih h2]

/-- Splitting after a newline-free prefix peels off exactly that
prefix. -/
theorem splitNL_append_newline :
    ∀ (x r : Str), '\n' ∉ x → splitNL (x ++ '\n' :: r) = x :: splitNL r := by
  intro x
  induction x with
  | nil => intro r _; simp [splitNL]
  | cons c rest ih =>
    intro r h
    rw [List.mem_cons] at h
    push_neg at h
    obtain ⟨h1, h2⟩ := h
    have hc : ¬ c = '\n' := fun hh => h1 hh.symm
    simp [splitNL, hc, ih r h2]

/-- `splitNL` is a left inverse of `joinNL` on non-empty lists of
newline-free lines. -/
theorem splitNL_joinNL :
    ∀ (xs : List Str) (x : Str), '\n' ∉ x → (∀ y ∈ xs, '\n' ∉ y) →
      splitNL (joinNL (x :: xs)) = x :: xs := by
  intro xs
  induction xs with
  | nil => intro x hx _; simpa [joinNL] using splitNL_no_newline x hx
  | cons y ys ih =>
    intro x hx hys
    rw [joinNL, splitNL_append_newline x (joinNL (y :: ys)) hx]
    rw [ih y (hys y (List.mem_cons_self y ys))
      (fun z hz => hys z (List.mem_cons_of_mem y hz))]

/-- A rendered short-term-memory line contains no newline when the
record's comment and topic contain none. -/
theorem stmLine_no_newline (a : Annotation) (hc : '\n' ∉ a.comment)
    (ht : '\n' ∉ topicChars a) : '\n' ∉ stmLine a := by
  have htop : '\n' ∉ stmTopic a := by
    rcases hta : a.topic with _ | t
    · simp [stmTopic, hta]
    · by_cases hte : t = []
      · simp [stmTopic, hta, hte]
      · have htc : topicChars a = t := by simp [topicChars, hta]
        simp only [stmTopic, hta, if_neg hte]
        intro hmem
        rcases List.mem_append.mp hmem with h | h
        · rcases List.mem_append.mp h with h2 | h2
          · exact absurd h2 (by decide)
          · exact ht (htc ▸ h2)
        · exact absurd h (by decide)
  have hrole : '\n' ∉ stmRole a := by
    rw [stmRole]
    by_cases hau : a.author = Author.user
    · rw [if_pos hau]; decide
    · rw [if_neg hau]; decide
  have hcon : '\n' ∉ stmContent a := by
    rw [stmContent]
    by_cases hlen : 50 < a.comment.length
    · rw [if_pos hlen]
      intro hmem
      rcases List.mem_append.mp hmem with h | h
      · exact hc (List.take_subset 50 a.comment h)
      · exact absurd h (by decide)
    · rw [if_neg hlen]; exact hc
  rw [stmLine]
  intro hmem
  simp only [List.mem_append] at hmem
  rcases hmem with ((((h | h) | h) | h) | h) | h
  · exact absurd h (by decide)
  · exact htop h
  · exact absurd h (by decide)
  · exact hrole h
  · exact absurd h (by decide)
  · exact hcon h

/-- C8 (amended): `formatShortTermMemory []` returns the fixed
placeholder; and for every non-empty list of records whose comment and
topic contain no newline character, the output has exactly one line per
input record, in the caller's order (the lines are exactly the rendered
entries), with the content field equal to the comment unchanged when its
length is at most 50 characters and to the first 50 characters followed
by an ellipsis otherwise.  (A comment containing a newline produces
extra output lines, so the no-newline proviso is necessary.) -/
theorem formatShortTermMemory_lines :
    formatShortTermMemory [] = str "暂无最近的讨论。" ∧
    ∀ (l : List Annotation),
      l ≠ [] →
      (∀ a ∈ l, '\n' ∉ a.comment ∧ '\n' ∉ topicChars a) →
      splitNL (formatShortTermMemory l) = l.map stmLine ∧
      (splitNL (formatShortTermMemory l)).length = l.length ∧
      ∀ a ∈ l, stmContent a =
        if a.comment.length ≤ 50 then a.comment
        else a.comment.take 50 ++ str "..." := by
  constructor
  · rfl
  · intro l hne hnl
    have hmain : splitNL (formatShortTermMemory l) = l.map stmLine := by
      cases l with
      | nil => exact absurd rfl hne
      | cons x xs =>
        rw [formatShortTermMemory, if_neg (by simp)]
        rw [List.map_cons]
        exact splitNL_joinNL (xs.map stmLine) (stmLine x)
          (stmLine_no_newline x (hnl x (List.mem_cons_self x xs)).1
            (hnl x (List.mem_cons_self x xs)).2)
          (by
            intro y hy
            rcases List.mem_map.mp hy with ⟨b, hb, rfl⟩
            exact stmLine_no_newline b (hnl b (List.mem_cons_of_mem x hb)).1
              (hnl b (List.mem_cons_of_mem x hb)).2)
    refine ⟨hmain, by rw [hmain, List.length_map], ?_⟩
    intro a ha
    rw [stmContent]
    by_cases hlen : 50 < a.comment.length
    · rw [if_pos hlen, if_neg (by omega)]
    · rw [if_neg hlen, if_pos (by omega)]

/-- Witness for the amended C8 theorem on a concrete one-record list. -/
theorem formatShortTermMemory_lines_witness :
    (([sampleAnno] : List Annotation) ≠ [] ∧
      (∀ a ∈ ([sampleAnno] : List Annotation),
        '\n' ∉ a.comment ∧ '\n' ∉ topicChars a)) ∧
    (splitNL (formatShortTermMemory [sampleAnno]) =
        [sampleAnno].map stmLine ∧
      (splitNL (formatShortTermMemory [sampleAnno])).length =
        [sampleAnno].length ∧
      ∀ a ∈ ([sampleAnno] : List Annotation), stmContent a =
        if a.comment.length ≤ 50 then a.comment
        else a.comment.take 50 ++ str "...") :=
  ⟨⟨by decide, by decide⟩,
    formatShortTermMemory_lines.2 [sampleAnno] (by decide) (by decide)⟩

/-- C8 counterexample: a single record whose comment contains a newline
produces two output lines, so the output does not have exactly one line
per input record. -/
theorem formatShortTermMemory_newline_lines :
    (splitNL (formatShortTermMemory [newlineAnno])).length = 2 ∧
    [newlineAnno].length = 1 := by
  constructor
  · decide
  · rfl

/-- Deleting an id from the tracked set removes every occurrence of
it. -/
theorem not_mem_setDelete (s : List Str) (x : Str) : x ∉ setDelete s x := by
  intro h
  rw [setDelete, List.mem_filter] at h
  exact (of_decide_eq_true h.2) rfl

/-- C1: in the reactive create-and-annotate flow, if the
`generateAIAnnotation` call fails after the optimistic placeholder was
inserted, then no record with the placeholder id remains in the final
annotation collection (the rollback removes it entirely) and the per-id
Pending marker is cleared, for every failing run. -/
theorem executeAIAnnotation_rollback :
    ∀ (st : CoordState) (tempId bookId selection personaId : Str)
      (ts1 ts2 : Nat) (e : Str) (topicResult : Except Str Str),
      st.isProcessing = false →
      (∀ a ∈ ( executeAIAnnotation st true true tempId bookId selection
          personaId ts1 ts2 (Except.error e) topicResult).annotations,
        ¬ a.id = tempId) ∧
      tempId ∉ ( executeAIAnnotation st true true tempId bookId selection
          personaId ts1 ts2 (Except.error e) topicResult).processing := by
  intro st tempId bookId selection personaId ts1 ts2 e topicResult hproc
  constructor
  · intro a ha
    simp only [ executeAIAnnotation, hproc, Bool.not_true, Bool.false_or,
      Bool.false_eq_true, if_false, ite_false, rollbackPlaceholder] at ha
    rw [List.mem_filter] at ha
    exact of_decide_eq_true ha.2
  · simp only [ executeAIAnnotation, hproc, Bool.not_true, Bool.false_or,
      Bool.false_eq_true, if_false, ite_false, rollbackPlaceholder]
    exact not_mem_setDelete _ tempId

/-- Witness for the C1 theorem on a concrete state with one existing
annotation and a failing AI call. -/
theorem executeAIAnnotation_rollback_witness :
    sampleState.isProcessing = false ∧
    ((∀ a ∈ ( executeAIAnnotation sampleState true true (str "1")
        (str "b1") (str "sel") (str "p1") 10 11 (Except.error (str "boom"))
        (Except.ok (str "t"))).annotations,
      ¬ a.id = str "1") ∧
    str "1" ∉ ( executeAIAnnotation sampleState true true (str "1")
        (str "b1") (str "sel") (str "p1") 10 11 (Except.error (str "boom"))
        (Except.ok (str "t"))).processing) :=
  ⟨rfl, executeAIAnnotation_rollback sampleState (str "1") (str "b1")
    (str "sel") (str "p1") 10 11 (str "boom") (Except.ok (str "t")) rfl⟩

/-- C2: in the append-and-reply chat flow, when the AI call fails after
the optimistic user-turn append, every record with the triggered id ends
with the optimistic history plus exactly one additional turn — the fixed
fallback apology model turn — so the count of the user turn is unchanged
from the optimistic history (no duplicate); and in every run (success or
failure) the id is removed from the Pending set by the
finally-equivalent cleanup. -/
theorem handleTriggerAIReply_failure_append :
    ∀ (st : CoordState) (annotationId userMessage : Str)
      (ctx : List ChatTurn) (replyResult : Except Str Str)
      (anno : Annotation),
      st.annotations.find? (fun a => decide (a.id = annotationId)) =
          some anno →
      ((∀ e, replyResult = Except.error e →
        ∀ a ∈ (handleTriggerAIReply st annotationId userMessage ctx
            replyResult).annotations,
          a.id = annotationId →
          a.chatHistory =
            (ctx ++ (if userMessage = [] then []
                     else [ChatTurn.mk ChatRole.user userMessage])) ++
              [ChatTurn.mk ChatRole.model fallbackApology] ∧
          a.chatHistory.countP
              (fun turn =>
                decide (turn = ChatTurn.mk ChatRole.user userMessage)) =
            (ctx ++ (if userMessage = [] then []
                     else [ChatTurn.mk ChatRole.user userMessage])).countP
              (fun turn =>
                decide (turn = ChatTurn.mk ChatRole.user userMessage))) ∧
      annotationId ∉ (handleTriggerAIReply st annotationId userMessage ctx
          replyResult).processing) := by
  intro st annotationId userMessage ctx replyResult anno hfind
  constructor
  · intro e he a ha haid
    subst he
    simp only [handleTriggerAIReply, hfind] at ha
    by_cases hu : userMessage = []
    · simp only [hu, eq_self_iff_true, if_true, ite_true] at ha
      rcases List.mem_map.mp ha with ⟨b, hb, hba⟩
      by_cases hbid : b.id = annotationId
      · rw [if_pos hbid] at hba
        subst hba
        constructor
        · simp [hu]
        · simp [hu, List.countP_append, List.countP_cons, ChatTurn.mk.injEq,
            fallbackApology]
      · rw [if_neg hbid] at hba
        subst hba
        exact absurd haid hbid
    · simp only [hu, if_false, ite_false, List.map_map] at ha
      rcases List.mem_map.mp ha with ⟨b, hb, hba⟩
      by_cases hbid : b.id = annotationId
      · simp only [Function.comp, hbid, eq_self_iff_true, if_true,
          ite_true] at hba
        subst hba
        constructor
        · simp [hu]
        · simp [hu, List.countP_append, List.countP_cons, ChatTurn.mk.injEq,
            fallbackApology]
      · simp only [Function.comp, hbid, if_false, ite_false] at hba
        subst hba
        exact absurd haid hbid
  · by_cases hu : userMessage = [] <;>
      cases replyResult <;>
      simp only [handleTriggerAIReply, hfind, hu, eq_self_iff_true, if_true,
        ite_true, if_false, ite_false] <;>
      exact not_mem_setDelete _ annotationId

/-- Witness for the C2 theorem on a concrete state, message and a
failing AI call. -/
theorem handleTriggerAIReply_failure_append_witness :
    (sampleState.annotations.find? (fun a => decide (a.id = str "7")) =
        some sampleAnno) ∧
    ((∀ e, (Except.error (str "net") : Except Str Str) = Except.error e →
      ∀ a ∈ (handleTriggerAIReply sampleState (str "7") (str "hi")
          [ChatTurn.mk ChatRole.user (str "note")]
          (Except.error (str "net"))).annotations,
        a.id = str "7" →
        a.chatHistory =
          ([ChatTurn.mk ChatRole.user (str "note")] ++
            (if str "hi" = ([] : Str) then []
             else [ChatTurn.mk ChatRole.user (str "hi")])) ++
            [ChatTurn.mk ChatRole.model fallbackApology] ∧
        a.chatHistory.countP
            (fun turn =>
              decide (turn = ChatTurn.mk ChatRole.user (str "hi"))) =
          ([ChatTurn.mk ChatRole.user (str "note")] ++
            (if str "hi" = ([] : Str) then []
             else [ChatTurn.mk ChatRole.user (str "hi")])).countP
            (fun turn =>
              decide (turn = ChatTurn.mk ChatRole.user (str "hi")))) ∧
    str "7" ∉ (handleTriggerAIReply sampleState (str "7") (str "hi")
        [ChatTurn.mk ChatRole.user (str "note")]
        (Except.error (str "net"))).processing) :=
  ⟨by decide,
    handleTriggerAIReply_failure_append sampleState (str "7") (str "hi")
      [ChatTurn.mk ChatRole.user (str "note")] (Except.error (str "net"))
      sampleAnno (by decide)⟩

/-- C5 (amended): the App-level flow does treat an empty comment as a
hard failure — were `generateAIAnnotation` to resolve with an empty
string, the placeholder would be rolled back and the Pending marker
cleared.  But `generateAIAnnotation` never resolves with an empty
string: an empty adapter text is replaced by the fallback `"..."`
inside the service, so on the composed path an empty model text does
not throw, and a record with the placeholder id and comment `"..."` is
persisted instead of being rolled back. -/
theorem emptyText_annotation_path :
    ∀ (st : CoordState) (tempId bookId selection personaId : Str)
      (ts1 ts2 : Nat) (topicResult : Except Str Str) (topic : Str),
      st.isProcessing = false →
      ((∀ a ∈ ( executeAIAnnotation st true true tempId bookId selection
            personaId ts1 ts2 (Except.ok []) topicResult).annotations,
          ¬ a.id = tempId) ∧
        tempId ∉ ( executeAIAnnotation st true true tempId bookId selection
            personaId ts1 ts2 (Except.ok []) topicResult).processing) ∧
      (∀ text : Str, generateAIAnnotationResult text ≠ []) ∧
      (∃ a ∈ ( executeAIAnnotation st true true tempId bookId selection
            personaId ts1 ts2 (Except.ok (generateAIAnnotationResult []))
            (Except.ok topic)).annotations,
        a.id = tempId ∧ a.comment = str "...") := by
  intro st tempId bookId selection personaId ts1 ts2 topicResult topic hproc
  refine ⟨⟨?_, ?_⟩, ?_, ?_⟩
  · intro a ha
    simp only [ executeAIAnnotation, hproc, Bool.not_true, Bool.false_or,
      Bool.false_eq_true, if_false, ite_false, eq_self_iff_true, if_true,
      ite_true, rollbackPlaceholder] at ha
    rw [List.mem_filter] at ha
    exact of_decide_eq_true ha.2
  · simp only [ executeAIAnnotation, hproc, Bool.not_true, Bool.false_or,
      Bool.false_eq_true, if_false, ite_false, eq_self_iff_true, if_true,
      ite_true, rollbackPlaceholder]
    exact not_mem_setDelete _ tempId
  · intro text
    rw [generateAIAnnotationResult]
    by_cases htext : text = []
    · rw [if_pos htext]; decide
    · rw [if_neg htext]; exact htext
  · have hgen : generateAIAnnotationResult [] = str "..." := by decide
    rw [hgen]
    simp only [ executeAIAnnotation, hproc, Bool.not_true, Bool.false_or,
      Bool.false_eq_true, if_false, ite_false, rollbackPlaceholder]
    have hne : ¬ (str "..." = ([] : Str)) := by decide
    simp only [hne, if_false, ite_false, List.map_cons, eq_self_iff_true,
      if_true, ite_true]
    exact ⟨_, List.mem_cons_self _ _, rfl, rfl⟩

/-- Witness for the amended C5 theorem on a concrete state. -/
theorem emptyText_annotation_path_witness :
    sampleState.isProcessing = false ∧
    (((∀ a ∈ ( executeAIAnnotation sampleState true true (str "1")
          (str "b1") (str "sel") (str "p1") 10 11 (Except.ok [])
          (Except.ok (str "t"))).annotations,
        ¬ a.id = str "1") ∧
      str "1" ∉ ( executeAIAnnotation sampleState true true (str "1")
          (str "b1") (str "sel") (str "p1") 10 11 (Except.ok [])
          (Except.ok (str "t"))).processing) ∧
    (∀ text : Str, generateAIAnnotationResult text ≠ []) ∧
    (∃ a ∈ ( executeAIAnnotation sampleState true true (str "1")
          (str "b1") (str "sel") (str "p1") 10 11
          (Except.ok (generateAIAnnotationResult []))
          (Except.ok (str "t"))).annotations,
      a.id = str "1" ∧ a.comment = str "...")) :=
  ⟨rfl, emptyText_annotation_path sampleState (str "1") (str "b1")
    (str "sel") (str "p1") 10 11 (Except.ok (str "t")) (str "t") rfl⟩

/-- C5 counterexample: with the adapter returning the empty string on a
successful (2xx) response, the composed reactive-annotation flow
persists a record with the placeholder id (and the substituted comment
"...") — contradicting the claim that no annotation record remains. -/
theorem emptyText_annotation_persists :
    ∃ a ∈ ( executeAIAnnotation sampleState true true (str "1") (str "b1")
        (str "sel") (str "p1") 10 11
        (Except.ok (generateAIAnnotationResult []))
        (Except.ok (summarizeTopicResult []))).annotations,
      a.id = str "1" ∧ a.comment = str "..." := by decide
